import Mathlib

/-!
Verification development for the AppKit provider connector repository.

The repository is a thin adapter (`AppKitProviderConnector`) that forwards
four operations (getAccounts, getChainId, signTypedData, ethCall) from the
1inch limit-order SDK to the provider currently exposed by an AppKit wallet
session, plus a React demo UI wiring buttons to those operations.

The demo UI handlers are embedded from `test-ui` source (`App` component).
The connector class itself (`signer/AppKitProviderConnector.ts`) is not
present in the sources available here, so its operations are modelled from
the specification, as flagged in each doc comment.
-/

/-- The four JSON-RPC style methods the dispatcher must support
(spec section 6: accounts list, hex chain id, EIP-712 v4 signing, eth_call). -/
inductive RpcMethod where
  | ethAccounts
  | ethChainId
  | ethSignTypedDataV4
  | ethCall
deriving DecidableEq

/-- Failures raised by the underlying request dispatcher (spec section 7:
user rejection of a prompt, transport failure, node/provider revert). -/
inductive RpcError where
  | userRejected (reason : String)
  | transport (msg : String)
  | revert (msg : String)
deriving DecidableEq

/-- Results the dispatcher can return: a single string (hex chain id,
signature, call return data) or a list of strings (account addresses). -/
inductive RpcResult where
  | str (s : String)
  | strList (l : List String)
deriving DecidableEq

/-- A wallet provider: a generic request dispatcher taking a method name and
a positional parameter list (spec section 6). -/
structure Provider where
  request : RpcMethod → List String → Except RpcError RpcResult

/-- The state of the external wallet-connection library: for each session
handle, the provider (if any) that session currently exposes. The provider
may be replaced between calls (reconnect, account switch, chain switch). -/
def World : Type := Nat → Option Provider

/-- Modelled from the spec: the connector (`AppKitProviderConnector.ts` is
absent from the sources). It holds only a non-owning reference to the wallet
session, obtained once at construction (spec section 3); it captures no
provider. -/
structure AppKitProviderConnector where
  appKitRef : Nat

/-- Modelled from the spec: construction accepts a reference to the
wallet-session manager; the construction-time state of the session manager
is available but no provider is captured from it (spec sections 4.1 and 9). -/
def mkConnector (_constructionState : World) (ref : Nat) : AppKitProviderConnector :=
  ⟨ref⟩

/-- Modelled from the spec (section 9): `currentProvider()` re-resolves the
provider from the session handle; it is invoked at the top of every
operation rather than a field set once at construction. -/
def currentProvider (w : World) (c : AppKitProviderConnector) : Option Provider :=
  w c.appKitRef

/-- Observable effects of a connector operation: a dispatch through the
provider's request method, or a write to the session state. The connector
is specified never to emit the latter (spec section 3 invariant). -/
inductive Effect where
  | dispatch (m : RpcMethod) (params : List String)
  | sessionWrite (ref : Nat) (newProvider : Option Provider)

/-- Semantics of one effect on the wallet-connection library's state:
dispatches do not change session state; a session write replaces the
provider exposed by the written handle. -/
def applyEffect (w : World) : Effect → World
  | .dispatch _ _ => w
  | .sessionWrite ref p => fun r => if r = ref then p else w r

/-- Run a list of effects left to right over the session state. -/
def runEffects (w : World) : List Effect → World
  | [] => w
  | e :: es => runEffects (applyEffect w e) es

/-- Errors surfaced by the connector (spec section 7): the proactively
detectable "no provider" case, an upstream dispatcher failure propagated
unmodified, and a minimal synthesized error for a malformed response. -/
inductive ConnectorError where
  | providerUnavailable
  | upstream (e : RpcError)
  | badResponse (msg : String)
deriving DecidableEq

/-- The message carried by a connector error. The "no provider" message is
the one documented in the README error-handling section; an upstream error
keeps the dispatcher's original message content unaltered. -/
def errMessage : ConnectorError → String
  | .providerUnavailable => "No provider available"
  | .upstream (.userRejected reason) => reason
  | .upstream (.transport msg) => msg
  | .upstream (.revert msg) => msg
  | .badResponse msg => msg

/-- A typed-data payload (spec section 3): domain separator, type schema and
message fields, constructed by the external order SDK and treated by the
connector as an opaque value. The fields are carried as their JSON texts. -/
structure EIP712TypedData where
  domain : String
  types : String
  message : String
deriving DecidableEq

/-- Modelled from the spec (section 4.1): the connector serializes the
opaque typed-data payload into the string form the provider's signing
method expects (stringified JSON). -/
def serializeTypedData (td : EIP712TypedData) : String :=
  "\x7b\x22domain\x22:" ++ td.domain ++ ",\x22types\x22:" ++ td.types ++
    ",\x22message\x22:" ++ td.message ++ "\x7d"

/-- Reshape a dispatcher result expected to be a single string. An upstream
failure is propagated unmodified; an unexpected shape yields a minimal
synthesized error (spec section 4.1 propagation note). -/
def expectStr : Except RpcError RpcResult → Except ConnectorError String
  | .ok (.str s) => .ok s
  | .ok (.strList _) => .error (.badResponse "unexpected response shape")
  | .error e => .error (.upstream e)

/-- Reshape a dispatcher result expected to be a list of strings. -/
def expectStrList : Except RpcError RpcResult → Except ConnectorError (List String)
  | .ok (.strList l) => .ok l
  | .ok (.str _) => .error (.badResponse "unexpected response shape")
  | .error e => .error (.upstream e)

/-- Forwarding getAccounts through a given provider. -/
def getAccountsVia (p : Provider) : Except ConnectorError (List String) :=
  expectStrList (p.request .ethAccounts [])

/-- Forwarding getChainId through a given provider. -/
def getChainIdVia (p : Provider) : Except ConnectorError String :=
  expectStr (p.request .ethChainId [])

/-- Forwarding signTypedData through a given provider: the signer address
and the serialized payload are the two positional parameters. -/
def signTypedDataVia (p : Provider) (address : String) (td : EIP712TypedData) :
    Except ConnectorError String :=
  expectStr (p.request .ethSignTypedDataV4 [address, serializeTypedData td])

/-- Forwarding ethCall through a given provider: the target contract address
and the ABI-encoded call data are the two positional parameters, in order. -/
def ethCallVia (p : Provider) (contractAddress callData : String) :
    Except ConnectorError String :=
  expectStr (p.request .ethCall [contractAddress, callData])

/-- Modelled from the spec: `getAccounts` of the absent
`AppKitProviderConnector.ts`. It re-resolves the current provider, fails
with ProviderUnavailable (and dispatches nothing) when none is exposed, and
otherwise requests the account list (spec section 4.1). -/
def getAccounts (c : AppKitProviderConnector) (w : World) :
    Except ConnectorError (List String) × List Effect :=
  match currentProvider w c with
  | none => (.error .providerUnavailable, [])
  | some p => (getAccountsVia p, [.dispatch .ethAccounts []])

/-- Modelled from the spec: `getChainId` of the absent
`AppKitProviderConnector.ts`. Returns the dispatcher's raw hexadecimal
string unmodified (spec sections 4.1 and 8). -/
def getChainId (c : AppKitProviderConnector) (w : World) :
    Except ConnectorError String × List Effect :=
  match currentProvider w c with
  | none => (.error .providerUnavailable, [])
  | some p => (getChainIdVia p, [.dispatch .ethChainId []])

/-- Modelled from the spec: `signTypedData` of the absent
`AppKitProviderConnector.ts`. Serializes the opaque payload and requests a
signature over it from the given address; performs no validation of the
payload (spec sections 4.1 and 9). -/
def signTypedData (c : AppKitProviderConnector) (w : World)
    (address : String) (td : EIP712TypedData) :
    Except ConnectorError String × List Effect :=
  match currentProvider w c with
  | none => (.error .providerUnavailable, [])
  | some p =>
    (signTypedDataVia p address td,
      [.dispatch .ethSignTypedDataV4 [address, serializeTypedData td]])

/-- Modelled from the spec: `ethCall` of the absent
`AppKitProviderConnector.ts`. Forwards its two arguments unmodified as
positional parameters to the dispatcher; opaque forwarding with no local
format validation (spec sections 4.1, 8 and 9: the original performs no
validation and leaves input checking open). -/
def ethCall (c : AppKitProviderConnector) (w : World)
    (contractAddress callData : String) :
    Except ConnectorError String × List Effect :=
  match currentProvider w c with
  | none => (.error .providerUnavailable, [])
  | some p =>
    (ethCallVia p contractAddress callData,
      [.dispatch .ethCall [contractAddress, callData]])

/-- State of the demo UI `App` component relevant to the handlers: the
loading flag and the result and error texts (test UI source, lines 12-14). -/
structure UIState where
  loading : Bool
  result : Option String
  error : Option String
deriving DecidableEq

/-- Embedding of `clearResults` from the test UI: resets both the result
and the error state (test UI source, lines 36-39). -/
def clearResults (s : UIState) : UIState :=
  { s with result := none, error := none }

/-- Embedding of `JSON.stringify(accounts, null, 2)` on an array of strings
as used by `handleGetAccounts`: an empty array prints as a bare pair of
brackets, otherwise one two-space-indented quoted entry per line. -/
def jsonStringifyStrings : List String → String
  | [] => "[]"
  | xs =>
    "[\n" ++ String.intercalate ",\n" (xs.map (fun a => "  \x22" ++ a ++ "\x22")) ++ "\n]"

/-- Value of a single hexadecimal digit character, if it is one. -/
def hexDigitVal? (ch : Char) : Option Nat :=
  if '0' ≤ ch ∧ ch ≤ '9' then some (ch.toNat - '0'.toNat)
  else if 'a' ≤ ch ∧ ch ≤ 'f' then some (ch.toNat - 'a'.toNat + 10)
  else if 'A' ≤ ch ∧ ch ≤ 'F' then some (ch.toNat - 'A'.toNat + 10)
  else none

/-- Embedding of the caller-side `parseInt(hex, 16)` used by
`handleGetChainId` (test UI source, line 70): skip an optional 0x or 0X
prefix, read the longest prefix of hexadecimal digits, none (NaN) when
there is no digit. -/
def parseIntHex (s : String) : Option Nat :=
  let t := match s.data with
    | '0' :: 'x' :: rest => rest
    | '0' :: 'X' :: rest => rest
    | _ => s.data
  let ds := t.takeWhile (fun ch => (hexDigitVal? ch).isSome)
  if ds.isEmpty then none
  else some (ds.foldl (fun acc ch => acc * 16 + (hexDigitVal? ch).getD 0) 0)

/-- Decimal text of a parsed number, or the NaN text when parsing failed. -/
def renderNaNOr : Option Nat → String
  | some n => toString n
  | none => "NaN"

/-- Embedding of `String.prototype.padStart` with a single pad character:
pad on the left up to the target length, return the string unchanged when
it is already long enough. -/
def padStart (s : String) (targetLength : Nat) (pad : Char) : String :=
  if targetLength ≤ s.length then s
  else String.mk (List.replicate (targetLength - s.length) pad) ++ s

/-- Embedding of the balanceOf call-data construction of
`handleTestEthCall` (test UI source, line 88): the selector followed by the
address without its 0x prefix, left-padded with zeros to 64 characters. -/
def balanceOfCallData (address : String) : String :=
  "0x70a08231" ++ padStart (address.drop 2) 64 '0'

/-- Modelled from the spec: the external order SDK's typed-data
construction (`LimitOrder.getTypedData`, out of scope per spec section 1)
as an opaque deterministic function of the order fields and chain id. -/
def limitOrderTypedData (makerAsset takerAsset makingAmount takingAmount maker : String)
    (chainId : Nat) : EIP712TypedData :=
  { domain := "\x22chainId\x22:" ++ toString chainId,
    types := "\x22LimitOrder\x22",
    message := "\x22makerAsset\x22:" ++ makerAsset ++ ",\x22takerAsset\x22:" ++ takerAsset ++
      ",\x22makingAmount\x22:" ++ makingAmount ++ ",\x22takingAmount\x22:" ++ takingAmount ++
      ",\x22maker\x22:" ++ maker }

/-- The success text built by `handleSignLimitOrder` (test UI source,
lines 121-134): the order details, the signature and the typed data. -/
def signSuccessMessage (makerAsset takerAsset makingAmount takingAmount maker : String)
    (chainId : Nat) (signature : String) (td : EIP712TypedData) : String :=
  "Limit order signed successfully!\n\nOrder Details:\n- Maker Asset: " ++ makerAsset ++
    "\n- Taker Asset: " ++ takerAsset ++ "\n- Making Amount: " ++ makingAmount ++
    "\n- Taking Amount: " ++ takingAmount ++ "\n- Maker: " ++ maker ++
    "\n- Chain ID: " ++ toString chainId ++ "\n\nSignature: " ++ signature ++
    "\n\nTyped Data:\n" ++ serializeTypedData td

/-- Embedding of `handleGetAccounts` (test UI source, lines 46-60): return
unchanged without a connector; otherwise set loading, clear both results,
set exactly one of result and error from the connector call, and reset
loading as the finally block does. -/
def handleGetAccounts (connector : Option AppKitProviderConnector) (w : World)
    (s : UIState) : UIState :=
  match connector with
  | none => s
  | some c =>
    let s1 := { s with loading := true }
    let s2 := clearResults s1
    let s3 :=
      match (getAccounts c w).1 with
      | .ok accounts =>
        { s2 with result := some ("Connected accounts: " ++ jsonStringifyStrings accounts) }
      | .error err =>
        { s2 with error := some ("Failed to get accounts: " ++ errMessage err) }
    { s3 with loading := false }

/-- Embedding of `handleGetChainId` (test UI source, lines 62-77): on
success the result shows the raw hex chain id and its caller-side decimal
conversion. -/
def handleGetChainId (connector : Option AppKitProviderConnector) (w : World)
    (s : UIState) : UIState :=
  match connector with
  | none => s
  | some c =>
    let s1 := { s with loading := true }
    let s2 := clearResults s1
    let s3 :=
      match (getChainId c w).1 with
      | .ok chainIdHex =>
        { s2 with result := some ("Chain ID: " ++ chainIdHex ++ " (" ++
            renderNaNOr (parseIntHex chainIdHex) ++ ")") }
      | .error err =>
        { s2 with error := some ("Failed to get chain ID: " ++ errMessage err) }
    { s3 with loading := false }

/-- Embedding of `handleTestEthCall` (test UI source, lines 79-97): guarded
on both a connector and an address; calls ethCall on the maker asset with
the balanceOf call data for the connected address. -/
def handleTestEthCall (connector : Option AppKitProviderConnector)
    (address : Option String) (w : World) (makerAsset : String)
    (s : UIState) : UIState :=
  match connector, address with
  | some c, some addr =>
    let s1 := { s with loading := true }
    let s2 := clearResults s1
    let tokenAddress := makerAsset
    let callData := balanceOfCallData addr
    let s3 :=
      match (ethCall c w tokenAddress callData).1 with
      | .ok balance => { s2 with result := some ("DAI Balance: " ++ balance) }
      | .error err =>
        { s2 with error := some ("Failed to execute eth_call: " ++ errMessage err) }
    { s3 with loading := false }
  | _, _ => s

/-- Embedding of `handleSignLimitOrder` (test UI source, lines 99-140):
guarded on both a connector and an address; builds the limit order's typed
data for the current chain and signs it through the connector. -/
def handleSignLimitOrder (connector : Option AppKitProviderConnector)
    (address : Option String) (w : World)
    (makerAsset takerAsset makingAmount takingAmount : String) (chainId : Nat)
    (s : UIState) : UIState :=
  match connector, address with
  | some c, some addr =>
    let s1 := { s with loading := true }
    let s2 := clearResults s1
    let typedData := limitOrderTypedData makerAsset takerAsset makingAmount takingAmount addr chainId
    let s3 :=
      match (signTypedData c w addr typedData).1 with
      | .ok signature =>
        { s2 with result := some (signSuccessMessage makerAsset takerAsset makingAmount
            takingAmount addr chainId signature typedData) }
      | .error err =>
        { s2 with error := some ("Failed to sign limit order: " ++ errMessage err) }
    { s3 with loading := false }
  | _, _ => s

/-- Basic hexadecimal format check in the sense of the spec's error
taxonomy: a 0x prefix followed by at least one hexadecimal digit and
nothing else. -/
def isWellFormedHex (s : String) : Bool :=
  match s.data with
  | '0' :: 'x' :: rest => !rest.isEmpty && rest.all (fun ch => (hexDigitVal? ch).isSome)
  | _ => false

/-- Handler postcondition of the demo UI: loading reset, at most one of the
result and error states set, and one of them actually set. -/
def settled (s : UIState) : Prop :=
  s.loading = false ∧ (s.result = none ∨ s.error = none) ∧
    (s.result.isSome = true ∨ s.error.isSome = true)

/-- A session-manager state exposing no provider for any handle. -/
def emptyWorld : World := fun _ => none

/-- A provider answering every request with the same single string. -/
def providerConst (answer : String) : Provider :=
  ⟨fun _ _ => .ok (.str answer)⟩

/-- A session-manager state exposing the given provider for every handle. -/
def worldWith (p : Provider) : World := fun _ => some p

/-- A small concrete typed-data payload for concrete evaluations. -/
def tdExample : EIP712TypedData :=
  { domain := "\x22chainId\x22:1",
    types := "\x22LimitOrder\x22",
    message := "\x22maker\x22:\x220xabc\x22" }

/-- Claim C1: for every session state that exposes no provider, each of the
four operations fails with the ProviderUnavailable error and performs zero
dispatches through the underlying request dispatcher. -/
theorem claim1_no_provider_fails_without_dispatch
    (c : AppKitProviderConnector) (w : World)
    (h : currentProvider w c = none) :
    getAccounts c w = (.error .providerUnavailable, []) ∧
    getChainId c w = (.error .providerUnavailable, []) ∧
    (∀ address td, signTypedData c w address td = (.error .providerUnavailable, [])) ∧
    (∀ a d, ethCall c w a d = (.error .providerUnavailable, [])) := by
  refine ⟨?_, ?_, fun address td => ?_, fun a d => ?_⟩ <;>
    simp [getAccounts, getChainId, signTypedData, ethCall, h]

/-- Concrete instance of claim C1: a session with no provider rejects all
four operations with ProviderUnavailable and an empty dispatch trace. -/
theorem claim1_witness :
    getAccounts ⟨0⟩ emptyWorld = (.error .providerUnavailable, []) ∧
    getChainId ⟨0⟩ emptyWorld = (.error .providerUnavailable, []) ∧
    signTypedData ⟨0⟩ emptyWorld "0xabc" tdExample = (.error .providerUnavailable, []) ∧
    ethCall ⟨0⟩ emptyWorld "0xabc" "0x70a08231" = (.error .providerUnavailable, []) := by
  have h := claim1_no_provider_fails_without_dispatch ⟨0⟩ emptyWorld rfl
  exact ⟨h.1, h.2.1, h.2.2.1 "0xabc" tdExample, h.2.2.2 "0xabc" "0x70a08231"⟩

/-- Claim C2: every operation re-resolves the current provider from the
session handle at invocation time: the session-manager state seen at
construction is irrelevant to every later call, and when the session
exposes provider p at call time the operation's result is exactly the
forwarding through p, so a call after a provider change dispatches through
the new provider. -/
theorem claim2_provider_refetched_per_call
    (w0 w1 : World) (ref : Nat) (w : World) :
    (getAccounts (mkConnector w0 ref) w = getAccounts (mkConnector w1 ref) w ∧
     getChainId (mkConnector w0 ref) w = getChainId (mkConnector w1 ref) w ∧
     (∀ address td, signTypedData (mkConnector w0 ref) w address td =
        signTypedData (mkConnector w1 ref) w address td) ∧
     (∀ a d, ethCall (mkConnector w0 ref) w a d = ethCall (mkConnector w1 ref) w a d)) ∧
    (∀ p, w ref = some p →
      (getAccounts (mkConnector w0 ref) w).1 = getAccountsVia p ∧
      (getChainId (mkConnector w0 ref) w).1 = getChainIdVia p ∧
      (∀ address td, (signTypedData (mkConnector w0 ref) w address td).1 =
         signTypedDataVia p address td) ∧
      (∀ a d, (ethCall (mkConnector w0 ref) w a d).1 = ethCallVia p a d)) := by
  constructor
  · exact ⟨rfl, rfl, fun _ _ => rfl, fun _ _ => rfl⟩
  · intro p hp
    refine ⟨?_, ?_, fun address td => ?_, fun a d => ?_⟩ <;>
      simp [getAccounts, getChainId, signTypedData, ethCall, currentProvider, mkConnector, hp]

/-- Concrete instance of claim C2: a connector constructed while the
session exposed a provider answering 0x1 is later run against a session
state exposing a provider answering 0x2, and getChainId returns 0x2. -/
theorem claim2_witness :
    (getChainId (mkConnector (worldWith (providerConst "0x1")) 0)
        (worldWith (providerConst "0x2"))).1 = .ok "0x2" := by
  have h := (claim2_provider_refetched_per_call
      (worldWith (providerConst "0x1")) emptyWorld 0
      (worldWith (providerConst "0x2"))).2 (providerConst "0x2") rfl
  exact h.2.1.trans rfl

/-- Claim C3: no operation mutates the wallet session state: replaying the
effects any operation emits over the session-manager state leaves that
state unchanged, for every session state and every input. -/
theorem claim3_no_session_mutation
    (c : AppKitProviderConnector) (w : World) :
    runEffects w (getAccounts c w).2 = w ∧
    runEffects w (getChainId c w).2 = w ∧
    (∀ address td, runEffects w (signTypedData c w address td).2 = w) ∧
    (∀ a d, runEffects w (ethCall c w a d).2 = w) := by
  refine ⟨?_, ?_, fun address td => ?_, fun a d => ?_⟩ <;>
    cases hcp : currentProvider w c <;>
      simp [getAccounts, getChainId, signTypedData, ethCall, hcp, runEffects, applyEffect]

/-- Claim C4: when the underlying dispatcher fails, the connector performs
no retry (the trace is the single failing dispatch) and propagates the
failure unmodified; a user rejection during signTypedData in particular
surfaces with the original rejection reason as its message, unaltered. -/
theorem claim4_failure_propagated_unmodified
    (c : AppKitProviderConnector) (w : World) (p : Provider)
    (hp : currentProvider w c = some p) :
    (∀ e, p.request .ethAccounts [] = .error e →
      getAccounts c w = (.error (.upstream e), [.dispatch .ethAccounts []])) ∧
    (∀ e, p.request .ethChainId [] = .error e →
      getChainId c w = (.error (.upstream e), [.dispatch .ethChainId []])) ∧
    (∀ address td e,
      p.request .ethSignTypedDataV4 [address, serializeTypedData td] = .error e →
      signTypedData c w address td =
        (.error (.upstream e),
          [.dispatch .ethSignTypedDataV4 [address, serializeTypedData td]]) ∧
      ∀ reason, e = .userRejected reason → errMessage (.upstream e) = reason) ∧
    (∀ a d e, p.request .ethCall [a, d] = .error e →
      ethCall c w a d = (.error (.upstream e), [.dispatch .ethCall [a, d]])) := by
  refine ⟨fun e he => ?_, fun e he => ?_, fun address td e he => ⟨?_, fun reason hre => ?_⟩,
      fun a d e he => ?_⟩
  · simp [getAccounts, hp, getAccountsVia, expectStrList, he]
  · simp [getChainId, hp, getChainIdVia, expectStr, he]
  · simp [signTypedData, hp, signTypedDataVia, expectStr, he]
  · subst hre; rfl
  · simp [ethCall, hp, ethCallVia, expectStr, he]

/-- A provider that rejects signing requests with the given reason and
answers everything else with a fixed string. -/
def rejectingProvider (reason : String) : Provider :=
  ⟨fun m _ =>
    match m with
    | .ethSignTypedDataV4 => .error (.userRejected reason)
    | _ => .ok (.str "0x")⟩

/-- Concrete instance of claim C4: a user-rejection from the dispatcher
during signTypedData surfaces unmodified, after exactly one dispatch, and
its message is exactly the original rejection reason. -/
theorem claim4_witness :
    signTypedData ⟨0⟩ (worldWith (rejectingProvider "User rejected the request"))
        "0xabc" tdExample =
      (.error (.upstream (.userRejected "User rejected the request")),
        [.dispatch .ethSignTypedDataV4 ["0xabc", serializeTypedData tdExample]]) ∧
    errMessage (.upstream (.userRejected "User rejected the request")) =
      "User rejected the request" := by
  have h := (claim4_failure_propagated_unmodified ⟨0⟩
      (worldWith (rejectingProvider "User rejected the request"))
      (rejectingProvider "User rejected the request") rfl).2.2.1 "0xabc" tdExample
      (.userRejected "User rejected the request") rfl
  exact ⟨h.1, h.2 "User rejected the request" rfl⟩

/-- Claim C5: ethCall passes exactly its two arguments, in order, as the
positional parameters of the dispatch: every dispatch it ever emits carries
exactly (contract address, call data), and with a provider present the
trace is exactly that single dispatch. -/
theorem claim5_ethCall_forwards_arguments_exactly
    (c : AppKitProviderConnector) (w : World) (a d : String) :
    (∀ eff ∈ (ethCall c w a d).2, eff = .dispatch .ethCall [a, d]) ∧
    (∀ p, currentProvider w c = some p →
      (ethCall c w a d).2 = [.dispatch .ethCall [a, d]]) := by
  constructor
  · cases hcp : currentProvider w c with
    | none => intro eff heff; simp [ethCall, hcp] at heff
    | some p => intro eff heff; simpa [ethCall, hcp] using heff
  · intro p hp
    simp [ethCall, hp]

/-- Concrete instance of claim C5: a capturing test double sees exactly the
DAI token address and the balanceOf call data, in that order. -/
theorem claim5_witness :
    (ethCall ⟨0⟩ (worldWith (providerConst "0x0"))
        "0x6b175474e89094c44da98b954eedeac495271d0f" "0x70a08231").2 =
      [.dispatch .ethCall ["0x6b175474e89094c44da98b954eedeac495271d0f", "0x70a08231"]] := by
  exact (claim5_ethCall_forwards_arguments_exactly ⟨0⟩ (worldWith (providerConst "0x0"))
      "0x6b175474e89094c44da98b954eedeac495271d0f" "0x70a08231").2 (providerConst "0x0") rfl

/-- Claim C6: for every hexadecimal string the dispatcher returns for the
chain-id request, getChainId returns exactly that string, with no decimal
conversion or any other transformation inside the connector. -/
theorem claim6_getChainId_returns_raw_hex
    (c : AppKitProviderConnector) (w : World) (p : Provider) (s : String)
    (hp : currentProvider w c = some p)
    (hs : p.request .ethChainId [] = .ok (.str s)) :
    getChainId c w = (.ok s, [.dispatch .ethChainId []]) := by
  simp [getChainId, hp, getChainIdVia, expectStr, hs]

/-- Concrete instance of claim C6: a dispatcher answering 0x1 makes
getChainId resolve to exactly 0x1, and the caller-side decimal conversion
of that string yields 1. -/
theorem claim6_witness :
    getChainId ⟨0⟩ (worldWith (providerConst "0x1")) =
      (.ok "0x1", [.dispatch .ethChainId []]) ∧
    parseIntHex "0x1" = some 1 := by
  exact ⟨claim6_getChainId_returns_raw_hex ⟨0⟩ (worldWith (providerConst "0x1"))
      (providerConst "0x1") "0x1" rfl rfl, by decide⟩

/-- Claim C7: with a provider present, getAccounts returns the dispatcher's
address list as-is and does not fail; in particular a session with zero
authorized accounts yields the empty sequence. -/
theorem claim7_getAccounts_returns_list_as_is
    (c : AppKitProviderConnector) (w : World) (p : Provider) (l : List String)
    (hp : currentProvider w c = some p)
    (hl : p.request .ethAccounts [] = .ok (.strList l)) :
    (getAccounts c w).1 = .ok l := by
  simp [getAccounts, hp, getAccountsVia, expectStrList, hl]

/-- A provider answering the accounts request with the given list and
everything else with a fixed string. -/
def accountsProvider (accounts : List String) : Provider :=
  ⟨fun m _ =>
    match m with
    | .ethAccounts => .ok (.strList accounts)
    | _ => .ok (.str "0x")⟩

/-- Concrete instance of claim C7: zero authorized accounts yield the empty
list without failure, and a one-address list comes back exactly as sent. -/
theorem claim7_witness :
    (getAccounts ⟨0⟩ (worldWith (accountsProvider []))).1 = .ok ([] : List String) ∧
    (getAccounts ⟨0⟩ (worldWith
        (accountsProvider ["0xabc0000000000000000000000000000000000001"]))).1 =
      .ok ["0xabc0000000000000000000000000000000000001"] := by
  exact ⟨claim7_getAccounts_returns_list_as_is ⟨0⟩ (worldWith (accountsProvider []))
      (accountsProvider []) [] rfl rfl,
    claim7_getAccounts_returns_list_as_is ⟨0⟩
      (worldWith (accountsProvider ["0xabc0000000000000000000000000000000000001"]))
      (accountsProvider ["0xabc0000000000000000000000000000000000001"])
      ["0xabc0000000000000000000000000000000000001"] rfl rfl⟩

/-- Claim C8: two successive signTypedData calls with the same address and
payload, the second run from the session state left by the first, produce
identical results; providers in this embedding are pure functions, which
matches the claim's deterministic-stub caveat. -/
theorem claim8_signTypedData_repeatable
    (c : AppKitProviderConnector) (w : World) (address : String) (td : EIP712TypedData) :
    (signTypedData c (runEffects w (signTypedData c w address td).2) address td).1 =
      (signTypedData c w address td).1 := by
  cases hcp : currentProvider w c <;>
    simp [signTypedData, hcp, runEffects, applyEffect]

/-- Claim C9 counterexample: with a provider present, an ethCall whose two
arguments fail even a basic hexadecimal format check does not fail before
dispatch: the dispatch to the provider happens (with the malformed
arguments) and the operation succeeds with the provider's answer, so no
MalformedInput failure precedes dispatch. -/
theorem claim9_counterexample :
    isWellFormedHex "0xzz" = false ∧
    isWellFormedHex "0xqq" = false ∧
    ethCall ⟨0⟩ (worldWith (providerConst "0x")) "0xzz" "0xqq" =
      (.ok "0x", [.dispatch .ethCall ["0xzz", "0xqq"]]) := by
  exact ⟨by decide, by decide, rfl⟩

/-- Claim C9 amended: the connector performs no pre-dispatch format
validation; even obviously malformed hexadecimal arguments are forwarded
opaquely to the provider, as exactly one dispatch with the arguments
unchanged, and the outcome is the provider's own. -/
theorem claim9_amended_no_predispatch_validation
    (c : AppKitProviderConnector) (w : World) (p : Provider)
    (hp : currentProvider w c = some p) :
    (∀ a d, isWellFormedHex a = false ∨ isWellFormedHex d = false →
      ethCall c w a d = (ethCallVia p a d, [.dispatch .ethCall [a, d]])) ∧
    (∀ address td, isWellFormedHex address = false →
      signTypedData c w address td =
        (signTypedDataVia p address td,
          [.dispatch .ethSignTypedDataV4 [address, serializeTypedData td]])) := by
  constructor
  · intro a d _
    simp [ethCall, hp]
  · intro address td _
    simp [signTypedData, hp]

/-- Concrete instance of the amended claim C9: a malformed address is still
dispatched unchanged. -/
theorem claim9_witness :
    ethCall ⟨0⟩ (worldWith (providerConst "0x")) "0xzz" "0x70a08231" =
      (ethCallVia (providerConst "0x") "0xzz" "0x70a08231",
        [.dispatch .ethCall ["0xzz", "0x70a08231"]]) := by
  exact (claim9_amended_no_predispatch_validation ⟨0⟩ (worldWith (providerConst "0x"))
      (providerConst "0x") rfl).1 "0xzz" "0x70a08231" (Or.inl (by decide))

/-- Claim C10: with a connector (and, where the handler requires one, an
address) present, each of the four demo UI handlers ends with the loading
flag false and exactly one of the result and error states set — so at most
one of them is non-null — whether the connector call succeeded or failed. -/
theorem claim10_handlers_postcondition
    (c : AppKitProviderConnector) (w : World) (address : String)
    (makerAsset takerAsset makingAmount takingAmount : String) (chainId : Nat)
    (s : UIState) :
    settled (handleGetAccounts (some c) w s) ∧
    settled (handleGetChainId (some c) w s) ∧
    settled (handleTestEthCall (some c) (some address) w makerAsset s) ∧
    settled (handleSignLimitOrder (some c) (some address) w
      makerAsset takerAsset makingAmount takingAmount chainId s) := by
  refine ⟨?_, ?_, ?_, ?_⟩
  · cases h : (getAccounts c w).1 <;>
      simp [handleGetAccounts, clearResults, settled, h]
  · cases h : (getChainId c w).1 <;>
      simp [handleGetChainId, clearResults, settled, h]
  · cases h : (ethCall c w makerAsset (balanceOfCallData address)).1 <;>
      simp [handleTestEthCall, clearResults, settled, h]
  · cases h : (signTypedData c w address
        (limitOrderTypedData makerAsset takerAsset makingAmount takingAmount address chainId)).1 <;>
      simp [handleSignLimitOrder, clearResults, settled, h]
